import Mathlib

/-!
Verification development for the ACRN device-model virtio-input backend
(devicemodel/hw/pci/virtio/virtio_input.c).

The C file implements the device lifecycle entry point `virtio_input_init`
(with a hand-rolled goto-fail teardown), the no-op event-queue notify
handler, and the config-space read/write dispatch stubs; the remaining
handlers (reset, feature negotiation, config payload computation, the
batching/drain path, deinit) are left as "to be implemented" placeholder
bodies.  Implemented code is embedded directly from the source; the
missing bodies are modelled from the specification document (their
definitions carry a "Modelled from the spec:" doc comment).

Machine integers are modelled as Nat with explicit truncation where it
matters; C strings are modelled as lists of characters or bytes; fallible
external calls (calloc, strdup, open, ioctl, mevent_add, ...) are modelled
by an explicit environment that fixes each call's outcome.
-/

/-! ## Source constants (virtio_input.c) -/

/-- Bit position of the virtio VERSION_1 feature (virtio spec; value 2^32). -/
def VIRTIO_F_VERSION_1 : Nat := 2 ^ 32

/-- Source: `#define VIRTIO_INPUT_S_HOSTCAPS (VIRTIO_F_VERSION_1)`. -/
def VIRTIO_INPUT_S_HOSTCAPS : Nat := VIRTIO_F_VERSION_1

/-- Source: `#define VIRTIO_INPUT_PACKET_SIZE 10`. -/
def VIRTIO_INPUT_PACKET_SIZE : Nat := 10

/-- Source: `#define VIRTIO_INPUT_RINGSZ 64`. -/
def VIRTIO_INPUT_RINGSZ : Nat := 64

/-- Source enum virtio_input_config_select values. -/
def VIRTIO_INPUT_CFG_UNSET : Nat := 0x00

def VIRTIO_INPUT_CFG_ID_NAME : Nat := 0x01

def VIRTIO_INPUT_CFG_ID_SERIAL : Nat := 0x02

def VIRTIO_INPUT_CFG_ID_DEVIDS : Nat := 0x03

def VIRTIO_INPUT_CFG_PROP_BITS : Nat := 0x10

def VIRTIO_INPUT_CFG_EV_BITS : Nat := 0x11

def VIRTIO_INPUT_CFG_ABS_INFO : Nat := 0x12

/-! ## Source data structures -/

/-- Source struct virtio_input_absinfo (five uint32 fields). -/
structure virtio_input_absinfo where
  min : Nat
  max : Nat
  fuzz : Nat
  flat : Nat
  res : Nat
deriving DecidableEq, Repr

/-- Source struct virtio_input_devids (four uint16 fields). -/
structure virtio_input_devids where
  bustype : Nat
  vendor : Nat
  product : Nat
  version : Nat
deriving DecidableEq, Repr

/-- Source struct virtio_input_event: fixed 8-byte record, type/code u16, value u32. -/
structure virtio_input_event where
  type : Nat
  code : Nat
  value : Nat
deriving DecidableEq, Repr

/-- Source struct virtio_input_config: selector, sub-selector, reported size,
and the 128-byte union payload, modelled as a raw byte list. -/
structure virtio_input_config where
  select : Nat
  subsel : Nat
  size : Nat
  payload : List Nat
deriving DecidableEq, Repr

/-- Source struct virtio_input: per-device state (base/queues/mutex plumbing
omitted; the fields below are the data the claims mention). -/
structure virtio_input where
  features : Nat
  cfg : virtio_input_config
  evdev : Option (List Char)
  serial : Option (List Char)
  fd : Int
  ready : Bool
  event_qsize : Nat
  event_qindex : Nat
deriving DecidableEq, Repr

/-! ## Embedding of virtio_input_init (implemented in the source)

The resources the function acquires, in acquisition order, are: the device
struct (calloc), the evdev path string (strdup), the serial string (strdup,
only when a comma is present in opts), the host descriptor (open), the
recursive mutex (pthread_mutex_init, non-fatal on failure), the staging
event-queue buffer (calloc), and the event-loop registration (mevent_add).
The fail label releases, in the source's order: mutex, staging buffer,
event-loop registration, host descriptor, serial string, path string,
device struct. -/

/-- A resource acquired by virtio_input_init. -/
inductive Res where
  | viStruct
  | evdevStr
  | serialStr
  | hostFd
  | mutex
  | eventQueue
  | meventReg
deriving DecidableEq, Repr

/-- Outcome environment for the external calls virtio_input_init makes.
Each Bool is true when the corresponding call succeeds; openFd gives the
return value of open(2) on a given path (negative means failure). -/
structure InitEnv where
  callocViOk : Bool
  strdupEvdevOk : Bool
  strdupSerialOk : Bool
  openFd : List Char → Int
  ioctlVersionOk : Bool
  ioctlGrabOk : Bool
  mutexInitOk : Bool
  callocQueueOk : Bool
  meventAddOk : Bool
  interruptInitOk : Bool
  setModernBarRc : Int

/-- Result of a virtio_input_init run: the C return value, the resources
acquired (in acquisition order) and the resources released (in release
order) before returning. -/
structure InitResult where
  ret : Int
  acquired : List Res
  released : List Res
deriving DecidableEq, Repr

/-- Embeds `opt = strsep(&opts, ",")`: the characters before the first
comma, and the remainder after it (none when there is no comma). -/
def splitAtComma : List Char → List Char × Option (List Char)
  | [] => ([], none)
  | c :: cs =>
    if c = ',' then ([], some cs)
    else
      let r := splitAtComma cs
      (c :: r.1, r.2)

/-- Embeds the source's `fail:` cleanup block: each flag says whether the
corresponding field of the device struct is non-NULL (for the descriptor,
whether `vi->fd > 0`); releases happen in exactly the source's order. -/
def failRelease (mutexInit eqAlloc mevpReg : Bool) (fd : Int)
    (serialAlloc evdevAlloc : Bool) : List Res :=
  (if mutexInit then [Res.mutex] else []) ++
  (if eqAlloc then [Res.eventQueue] else []) ++
  (if mevpReg then [Res.meventReg] else []) ++
  (if 0 < fd then [Res.hostFd] else []) ++
  (if serialAlloc then [Res.serialStr] else []) ++
  (if evdevAlloc then [Res.evdevStr] else []) ++
  [Res.viStruct]

/-- Steps of virtio_input_init from the mutex init on: mutex attr/init
(failure only logged, not fatal), staging buffer calloc, mevent_add,
virtio_linkup and queue setup, PCI config registers, interrupt init,
set_modern_bar (whose return code is returned directly on the success
path). `acc` is the acquisition list up to the host descriptor. -/
def virtio_input_init_tail (env : InitEnv) (hasSerial : Bool) (fd : Int)
    (acc : List Res) : InitResult :=
  let mtxOk := env.mutexInitOk
  let acc1 := if mtxOk then acc ++ [Res.mutex] else acc
  if !env.callocQueueOk then
    { ret := -1, acquired := acc1,
      released := failRelease mtxOk false false fd hasSerial true }
  else
    let acc2 := acc1 ++ [Res.eventQueue]
    if !env.meventAddOk then
      { ret := -1, acquired := acc2,
        released := failRelease mtxOk true false fd hasSerial true }
    else
      let acc3 := acc2 ++ [Res.meventReg]
      if !env.interruptInitOk then
        { ret := -1, acquired := acc3,
          released := failRelease mtxOk true true fd hasSerial true }
      else
        { ret := env.setModernBarRc, acquired := acc3, released := [] }

/-- Steps of virtio_input_init from open(2) on: open, O_NONBLOCK fcntl
(result ignored by the source), EVIOCGVERSION ioctl, EVIOCGRAB ioctl.
`acc` is the acquisition list up to the optional serial string. -/
def virtio_input_init_open (env : InitEnv) (path : List Char)
    (hasSerial : Bool) (acc : List Res) : InitResult :=
  let fd := env.openFd path
  if fd < 0 then
    { ret := -1, acquired := acc,
      released := failRelease false false false fd hasSerial true }
  else
    let acc1 := acc ++ [Res.hostFd]
    if !env.ioctlVersionOk then
      { ret := -1, acquired := acc1,
        released := failRelease false false false fd hasSerial true }
    else if !env.ioctlGrabOk then
      { ret := -1, acquired := acc1,
        released := failRelease false false false fd hasSerial true }
    else
      virtio_input_init_tail env hasSerial fd acc1

/-- Embeds virtio_input_init: NULL-opts check, device struct calloc,
strsep/strdup parsing of "path[,serial]", then the open/ioctl/mutex/
buffer/mevent/linkup/interrupt/bar sequence, with the goto-fail teardown
on each guarded failure.  (strsep on a non-NULL string never returns NULL,
so the source's second NULL-path check cannot fire and the parse always
yields the characters before the first comma.) -/
def virtio_input_init (env : InitEnv) (opts : Option (List Char)) : InitResult :=
  match opts with
  | none => { ret := -1, acquired := [], released := [] }
  | some s =>
    if !env.callocViOk then { ret := -1, acquired := [], released := [] }
    else
      let parts := splitAtComma s
      if !env.strdupEvdevOk then
        { ret := -1, acquired := [Res.viStruct],
          released := failRelease false false false 0 false false }
      else
        match parts.2 with
        | some _ =>
          if !env.strdupSerialOk then
            { ret := -1, acquired := [Res.viStruct, Res.evdevStr],
              released := failRelease false false false 0 false true }
          else
            virtio_input_init_open env parts.1 true
              [Res.viStruct, Res.evdevStr, Res.serialStr]
        | none =>
          virtio_input_init_open env parts.1 false [Res.viStruct, Res.evdevStr]

/-! ## Embedding of the implemented handlers (stubs with fixed behavior)

virtio_input_cfgread and virtio_input_cfgwrite have placeholder bodies
that immediately `return 0` without touching the device or the output
pointer; virtio_input_notify_event_vq only emits a DPRINTF line (when the
debug flag is set) and touches no device state. -/

/-- Embeds virtio_input_cfgread: the body is a placeholder that returns 0
and never writes through retval.  The result pairs the C return value
with the (unchanged) value behind the retval pointer. -/
def virtio_input_cfgread (dev : virtio_input) (offset size : Int)
    (retval : Nat) : Int × Nat :=
  let _ := dev
  let _ := offset
  let _ := size
  (0, retval)

/-- Embeds virtio_input_cfgwrite: the body is a placeholder that returns 0
and mutates nothing.  The result pairs the C return value with the
(unchanged) device state. -/
def virtio_input_cfgwrite (dev : virtio_input) (offset size : Int)
    (val : Nat) : Int × virtio_input :=
  let _ := offset
  let _ := size
  let _ := val
  (0, dev)

/-- Embeds virtio_input_notify_event_vq: its whole body is a DPRINTF of the
function name, so it produces one debug line when the debug flag is set and
leaves the device untouched.  The Nat is the number of lines printed. -/
def virtio_input_notify_event_vq (debug : Bool) (dev : virtio_input) :
    virtio_input × Nat :=
  (dev, if debug then 1 else 0)

/-! ## Config register emulator, modelled from the spec

The source bodies of virtio_input_cfgread's payload computation, of
virtio_input_cfgwrite's selector stores and of virtio_input_reset are
"to be implemented" placeholders; the definitions below follow section 4.4
and 4.1 of the specification. -/

/-- Host evdev device capabilities, as observed through the ioctls the spec
names: device name bytes, optional configured serial bytes, device ids,
property bitmap, per-event-type capability bitmaps, and per-axis absolute
axis info. -/
structure HostDevice where
  name : List Nat
  serialCfg : Option (List Nat)
  ids : virtio_input_devids
  propBits : Nat
  evBits : Nat → Nat
  absAxes : Nat → Option virtio_input_absinfo

/-- Number of bytes needed to represent the highest set bit of a bitmap,
0 when the bitmap is empty (spec section 4.4). -/
def bytesFor (bitmap : Nat) : Nat :=
  if bitmap = 0 then 0 else Nat.log2 bitmap / 8 + 1

/-- Little-endian bytes of a bitmap, one byte per 8 bits up to the highest
set bit. -/
def bitmapBytes (bitmap : Nat) : List Nat :=
  (List.range (bytesFor bitmap)).map (fun i => bitmap / 2 ^ (8 * i) % 256)

/-- Little-endian byte encoding of the 8-byte device-id record. -/
def devidsBytes (d : virtio_input_devids) : List Nat :=
  [d.bustype % 256, d.bustype / 256 % 256,
   d.vendor % 256, d.vendor / 256 % 256,
   d.product % 256, d.product / 256 % 256,
   d.version % 256, d.version / 256 % 256]

/-- Little-endian byte encoding of one uint32 field. -/
def u32Bytes (n : Nat) : List Nat :=
  [n % 256, n / 256 % 256, n / 65536 % 256, n / 16777216 % 256]

/-- Little-endian byte encoding of the 20-byte absolute-axis-info record. -/
def absinfoBytes (a : virtio_input_absinfo) : List Nat :=
  u32Bytes a.min ++ u32Bytes a.max ++ u32Bytes a.fuzz ++
  u32Bytes a.flat ++ u32Bytes a.res

/-- Zero-pads a byte list to the 128-byte union payload. -/
def pad128 (bs : List Nat) : List Nat :=
  bs.take 128 ++ List.replicate (128 - (bs.take 128).length) 0

/-- Modelled from the spec: the lazily computed (size, payload) pair for a
(select, subsel) query, section 4.4 — the source body of
virtio_input_cfgread is a "to be implemented" placeholder.  Name/serial
strings are NUL-terminated and truncated to 127 bytes plus terminator;
device ids and abs-info are fixed-size records; bitmaps report the bytes
up to the highest set bit; everything else degenerates to size 0 with an
all-zero payload. -/
def cfg_payload (host : HostDevice) (select subsel : Nat) : Nat × List Nat :=
  if select = VIRTIO_INPUT_CFG_ID_NAME then
    let s := host.name.take 127 ++ [0]
    (s.length, pad128 s)
  else if select = VIRTIO_INPUT_CFG_ID_SERIAL then
    match host.serialCfg with
    | some ser =>
      let s := ser.take 127 ++ [0]
      (s.length, pad128 s)
    | none => (0, pad128 [])
  else if select = VIRTIO_INPUT_CFG_ID_DEVIDS then
    (8, pad128 (devidsBytes host.ids))
  else if select = VIRTIO_INPUT_CFG_PROP_BITS then
    (bytesFor host.propBits, pad128 (bitmapBytes host.propBits))
  else if select = VIRTIO_INPUT_CFG_EV_BITS then
    (bytesFor (host.evBits subsel), pad128 (bitmapBytes (host.evBits subsel)))
  else if select = VIRTIO_INPUT_CFG_ABS_INFO then
    match host.absAxes subsel with
    | some a => (20, pad128 (absinfoBytes a))
    | none => (0, pad128 [])
  else (0, pad128 [])

/-- A (select, subsel) pair the host device supports: one whose query does
not degenerate to the zero-size response. -/
def supportedPair (host : HostDevice) (select subsel : Nat) : Bool :=
  (select = VIRTIO_INPUT_CFG_ID_NAME) ||
  (select = VIRTIO_INPUT_CFG_ID_SERIAL && host.serialCfg.isSome) ||
  (select = VIRTIO_INPUT_CFG_ID_DEVIDS) ||
  (select = VIRTIO_INPUT_CFG_PROP_BITS && host.propBits ≠ 0) ||
  (select = VIRTIO_INPUT_CFG_EV_BITS && host.evBits subsel ≠ 0) ||
  (select = VIRTIO_INPUT_CFG_ABS_INFO && (host.absAxes subsel).isSome)

/-- Modelled from the spec: `write_select` stores the written byte into the
select register and computes no payload (section 4.4) — the source body of
virtio_input_cfgwrite is a "to be implemented" placeholder. -/
def write_select (c : virtio_input_config) (v : Nat) : virtio_input_config :=
  { c with select := v % 256 }

/-- Modelled from the spec: `write_subsel` stores the written byte into the
subsel register and computes no payload (section 4.4). -/
def write_subsel (c : virtio_input_config) (v : Nat) : virtio_input_config :=
  { c with subsel := v % 256 }

/-! ## Lifecycle operations modelled from the spec -/

/-- Spec-level device state for reset: negotiated features, the staging
buffer with its write cursor, the configuration selector registers, and
the two resources reset must keep (host descriptor, event-loop
registration). -/
structure SpecDevState where
  features : Nat
  staging : List virtio_input_event
  stagingCursor : Nat
  cfgSelect : Nat
  cfgSubsel : Nat
  fdOpen : Bool
  meventRegistered : Bool
deriving Repr

/-- Modelled from the spec: `reset()` clears negotiated features, empties
the staging buffer, resets the configuration selector to unset, and keeps
the host descriptor open and the event-loop registration intact
(section 4.1) — the source body of virtio_input_reset is a
"to be implemented" placeholder. -/
def virtio_input_reset (s : SpecDevState) : SpecDevState :=
  { s with
    features := 0
    staging := []
    stagingCursor := 0
    cfgSelect := VIRTIO_INPUT_CFG_UNSET }

/-- Modelled from the spec: `negotiate_features(proposed)` stores
proposed ∩ offered capabilities (section 4.1) — the source body of
virtio_input_neg_features is a "to be implemented" placeholder. -/
def negotiate_features (proposed : Nat) : Nat :=
  Nat.land proposed VIRTIO_INPUT_S_HOSTCAPS

/-! ## Virtqueue transport adapter, modelled from the spec -/

/-- Result of draining one completed batch: the descriptor/event pairs
written and marked used, the number of guest notifications raised, and the
new drop counter. -/
structure DrainOutcome where
  written : List (Nat × virtio_input_event)
  notifications : Nat
  dropCounter : Nat
deriving DecidableEq, Repr

/-- Modelled from the spec: the per-event loop of `drain_batch` — pop one
guest descriptor per event, stop when none remain and count the events
left over as dropped (section 4.3). -/
def drainGo : List virtio_input_event → List Nat →
    List (Nat × virtio_input_event) × Nat
  | [], _ => ([], 0)
  | e :: es, [] => ([], (e :: es).length)
  | e :: es, d :: ds =>
    let r := drainGo es ds
    ((d, e) :: r.1, r.2)

/-- Modelled from the spec: `drain_batch(batch)` writes one descriptor per
event while descriptors remain, adds the leftover events to the drop
counter (drop-tail, never block), and raises a single guest notification
for the whole batch (section 4.3) — the source drain path is a
"to be implemented" placeholder. -/
def drain_batch (batch : List virtio_input_event) (avail : List Nat)
    (dropCounter : Nat) : DrainOutcome :=
  let r := drainGo batch avail
  { written := r.1, notifications := 1, dropCounter := dropCounter + r.2 }

/-! ## Detach, modelled from the spec -/

/-- A release action detach can perform. -/
inductive DetachAction where
  | unregisterMevent
  | releaseGrab
  | closeFd
  | freeEventQueue
  | freeSerial
  | freeEvdev
deriving DecidableEq, Repr

/-- Which resources a device still holds, as detach sees them. -/
structure DetachState where
  meventRegistered : Bool
  grabbed : Bool
  fdOpen : Bool
  eventQueueAllocated : Bool
  serialAllocated : Bool
  evdevAllocated : Bool
deriving DecidableEq, Repr

/-- Modelled from the spec: `detach()` unregisters the readiness callback,
releases exclusive access, closes the host descriptor and frees the
staging buffer and strings — each only when still held — leaving the
device fully closed (section 4.1) — the source body of
virtio_input_deinit is a "to be implemented" placeholder.  Returns the
closed state and the release actions performed, in order. -/
def virtio_input_deinit (s : DetachState) : DetachState × List DetachAction :=
  (⟨false, false, false, false, false, false⟩,
   (if s.meventRegistered then [DetachAction.unregisterMevent] else []) ++
   (if s.grabbed then [DetachAction.releaseGrab] else []) ++
   (if s.fdOpen then [DetachAction.closeFd] else []) ++
   (if s.eventQueueAllocated then [DetachAction.freeEventQueue] else []) ++
   (if s.serialAllocated then [DetachAction.freeSerial] else []) ++
   (if s.evdevAllocated then [DetachAction.freeEvdev] else []))

/-! ## Theorems -/

/-- C2 counterexample: the claim says the negotiated set always contains
the version-marker bit regardless of the proposed set, but with
result = proposed ∩ offered, proposing 0 negotiates 0, which lacks
VIRTIO_F_VERSION_1 (bit 32). -/
theorem negotiate_features_zero_lacks_version :
    negotiate_features 0 = 0 ∧
    Nat.testBit (negotiate_features 0) 32 = false := by
  refine ⟨?_, ?_⟩ <;> decide

/-- C2 (amended): the negotiated feature set is always a subset of the
fixed offered-capabilities bitmask VIRTIO_INPUT_S_HOSTCAPS (subset stated
as land-absorption), and it contains the version-marker bit exactly when
the proposed set does; the operation is total (no error path). -/
theorem negotiate_features_subset_hostcaps (proposed : Nat) :
    Nat.land (negotiate_features proposed) VIRTIO_INPUT_S_HOSTCAPS =
      negotiate_features proposed ∧
    Nat.testBit (negotiate_features proposed) 32 = Nat.testBit proposed 32 := by
  constructor
  · unfold negotiate_features
    show (proposed &&& VIRTIO_INPUT_S_HOSTCAPS) &&& VIRTIO_INPUT_S_HOSTCAPS =
      proposed &&& VIRTIO_INPUT_S_HOSTCAPS
    apply Nat.eq_of_testBit_eq
    intro i
    simp [Nat.testBit_land, Bool.and_assoc]
  · unfold negotiate_features
    show (proposed &&& VIRTIO_INPUT_S_HOSTCAPS).testBit 32 = proposed.testBit 32
    rw [Nat.testBit_land]
    have h : Nat.testBit VIRTIO_INPUT_S_HOSTCAPS 32 = true := by decide
    rw [h, Bool.and_true]

/-- C3: after reset, with no intervening selector write, the config query
for the stored (select, subsel) yields the unset-selector zero response
(size 0, all-zero 128-byte payload); the staging buffer is empty with
write cursor 0, negotiated features are cleared, and the host descriptor
and event-loop registration are exactly as before the reset. -/
theorem virtio_input_reset_state (s : SpecDevState) (host : HostDevice) :
    cfg_payload host (virtio_input_reset s).cfgSelect
        (virtio_input_reset s).cfgSubsel = (0, List.replicate 128 0) ∧
    (virtio_input_reset s).staging = [] ∧
    (virtio_input_reset s).stagingCursor = 0 ∧
    (virtio_input_reset s).features = 0 ∧
    (virtio_input_reset s).fdOpen = s.fdOpen ∧
    (virtio_input_reset s).meventRegistered = s.meventRegistered := by
  refine ⟨?_, rfl, rfl, rfl, rfl, rfl⟩
  have hpad : pad128 [] = List.replicate 128 0 := by decide
  simp [virtio_input_reset, cfg_payload, VIRTIO_INPUT_CFG_UNSET,
    VIRTIO_INPUT_CFG_ID_NAME, VIRTIO_INPUT_CFG_ID_SERIAL,
    VIRTIO_INPUT_CFG_ID_DEVIDS, VIRTIO_INPUT_CFG_PROP_BITS,
    VIRTIO_INPUT_CFG_EV_BITS, VIRTIO_INPUT_CFG_ABS_INFO, hpad]

/-- C4: every (select, subsel) pair the host device does not support —
including the unset selector — reads back as reported size 0 with an
all-zero 128-byte payload; cfg_payload is total, so no query signals an
error. -/
theorem cfg_payload_unsupported (host : HostDevice) (select subsel : Nat)
    (h : supportedPair host select subsel = false) :
    cfg_payload host select subsel = (0, List.replicate 128 0) := by
  have hpad : pad128 [] = List.replicate 128 0 := by decide
  unfold cfg_payload
  split_ifs with h1 h2 h3 h4 h5 h6
  · exact absurd h (by simp [supportedPair, h1])
  · cases hs : host.serialCfg with
    | none => simp [hpad]
    | some ser => exact absurd h (by simp [supportedPair, h2, hs])
  · exact absurd h (by simp [supportedPair, h3])
  · have hp : host.propBits = 0 := by
      by_contra hne
      exact absurd h (by simp [supportedPair, h4, hne])
    simp [hp, bytesFor, bitmapBytes, hpad]
  · have hp : host.evBits subsel = 0 := by
      by_contra hne
      exact absurd h (by simp [supportedPair, h5, hne])
    simp [hp, bytesFor, bitmapBytes, hpad]
  · cases hs : host.absAxes subsel with
    | none => simp [hpad]
    | some a => exact absurd h (by simp [supportedPair, h6, hs])
  · simp [hpad]

/-- A concrete host device with no serial, no properties, no event bits
and no absolute axes, used to exercise cfg_payload on an unsupported
selector. -/
def hostNoCaps : HostDevice :=
  { name := [65], serialCfg := none, ids := ⟨0, 0, 0, 0⟩, propBits := 0,
    evBits := fun _ => 0, absAxes := fun _ => none }

/-- C4 witness: selector 0x05 with sub-selector 0 is unsupported and reads
back as the zero response. -/
theorem cfg_payload_unsupported_witness :
    cfg_payload hostNoCaps 5 0 = (0, List.replicate 128 0) :=
  cfg_payload_unsupported hostNoCaps 5 0 (by decide)

/-- C5: writing a byte to the select register stores exactly that value in
the config block's select field and leaves subsel, size and payload
untouched; writing the subsel register stores the sub-selector and leaves
select, size and payload untouched — no payload is computed by the write. -/
theorem write_select_subsel_store (c : virtio_input_config) (v w : Nat)
    (hv : v < 256) (hw : w < 256) :
    (write_select c v).select = v ∧
    (write_select c v).subsel = c.subsel ∧
    (write_select c v).size = c.size ∧
    (write_select c v).payload = c.payload ∧
    (write_subsel c w).subsel = w ∧
    (write_subsel c w).select = c.select ∧
    (write_subsel c w).size = c.size ∧
    (write_subsel c w).payload = c.payload := by
  refine ⟨?_, rfl, rfl, rfl, ?_, rfl, rfl, rfl⟩ <;>
    simp [write_select, write_subsel, Nat.mod_eq_of_lt, hv, hw]

/-- C5 witness: storing select 0x12 and subsel 3 on a zeroed config
block. -/
theorem write_select_subsel_store_witness :
    (write_select ⟨0, 0, 0, []⟩ 18).select = 18 ∧
    (write_select ⟨0, 0, 0, []⟩ 18).subsel = 0 ∧
    (write_select ⟨0, 0, 0, []⟩ 18).size = 0 ∧
    (write_select ⟨0, 0, 0, []⟩ 18).payload = [] ∧
    (write_subsel ⟨0, 0, 0, []⟩ 3).subsel = 3 ∧
    (write_subsel ⟨0, 0, 0, []⟩ 3).select = 0 ∧
    (write_subsel ⟨0, 0, 0, []⟩ 3).size = 0 ∧
    (write_subsel ⟨0, 0, 0, []⟩ 3).payload = [] :=
  write_select_subsel_store ⟨0, 0, 0, []⟩ 18 3 (by decide) (by decide)

/-- drainGo writes one descriptor per event until either side runs out and
counts the events left without a descriptor as dropped. -/
theorem drainGo_len (b : List virtio_input_event) : ∀ a : List Nat,
    (drainGo b a).1.length = min b.length a.length ∧
    (drainGo b a).2 = b.length - a.length := by
  induction b with
  | nil => intro a; simp [drainGo]
  | cons e es ih =>
    intro a
    cases a with
    | nil => simp [drainGo]
    | cons d ds =>
      have h := ih ds
      simp [drainGo, h.1, h.2]
      omega

/-- C6: draining a completed batch of K events against an event queue with
only J < K available descriptors writes exactly J descriptors, raises
exactly one guest notification for the whole batch, and increments the
drop counter by K − J. -/
theorem drain_batch_underflow (batch : List virtio_input_event)
    (avail : List Nat) (dc : Nat) (h : avail.length < batch.length) :
    (drain_batch batch avail dc).written.length = avail.length ∧
    (drain_batch batch avail dc).notifications = 1 ∧
    (drain_batch batch avail dc).dropCounter =
      dc + (batch.length - avail.length) := by
  have hgo := drainGo_len batch avail
  unfold drain_batch
  refine ⟨?_, rfl, ?_⟩
  · simp [hgo.1]; omega
  · simp [hgo.2]

/-- C6 witness: a 2-event batch drained against a single descriptor writes
one descriptor, notifies once, and adds 1 to the drop counter. -/
theorem drain_batch_underflow_witness :
    (drain_batch [⟨0, 0, 0⟩, ⟨1, 1, 1⟩] [7] 5).written.length = 1 ∧
    (drain_batch [⟨0, 0, 0⟩, ⟨1, 1, 1⟩] [7] 5).notifications = 1 ∧
    (drain_batch [⟨0, 0, 0⟩, ⟨1, 1, 1⟩] [7] 5).dropCounter = 5 + (2 - 1) :=
  drain_batch_underflow [⟨0, 0, 0⟩, ⟨1, 1, 1⟩] [7] 5 (by decide)

/-- C7: detach is idempotent — after one detach the device holds nothing,
so a second detach performs no release action (nothing is freed or closed
twice) and leaves the closed state unchanged; detaching an already-closed
device is a no-op. -/
theorem virtio_input_deinit_idempotent (s : DetachState) :
    (virtio_input_deinit (virtio_input_deinit s).1).2 = [] ∧
    (virtio_input_deinit (virtio_input_deinit s).1).1 =
      (virtio_input_deinit s).1 := by
  simp [virtio_input_deinit]

/-- C9: the event-queue notify handler leaves the whole device instance
unchanged on every invocation — it only emits an optional debug line, so
no backlog is retried and events dropped earlier stay dropped. -/
theorem virtio_input_notify_event_vq_pure (debug : Bool)
    (dev : virtio_input) :
    (virtio_input_notify_event_vq debug dev).1 = dev := rfl

/-- C10: for every offset, access size and device state the config read
dispatch returns 0 and leaves the value behind retval unmodified, and the
config write dispatch returns 0 and changes no device state. -/
theorem virtio_input_cfg_dispatch_noop (dev : virtio_input)
    (offset size : Int) (retval val : Nat) :
    virtio_input_cfgread dev offset size retval = (0, retval) ∧
    virtio_input_cfgwrite dev offset size val = (0, dev) :=
  ⟨rfl, rfl⟩

/-! ## virtio_input_init teardown theorems -/

/-- The fixed release order the source's fail block uses: mutex, staging
buffer, event-loop registration, host descriptor, serial string, path
string, device struct. -/
def teardownOrder : List Res :=
  [Res.mutex, Res.eventQueue, Res.meventReg, Res.hostFd,
   Res.serialStr, Res.evdevStr, Res.viStruct]

/-- The releases the fail block performs when exactly the given resources
are held: the held resources, in the fixed teardown order. -/
def releasedFor (acquired : List Res) : List Res :=
  teardownOrder.filter (fun x => decide (x ∈ acquired))

/-- True when one of the guarded steps of virtio_input_init fails, i.e.
the run takes a goto-fail (or early-return) error exit: struct calloc,
path strdup, serial strdup (only when a serial is present), open, either
ioctl, staging-buffer calloc, mevent_add, or interrupt init. -/
def guardedFailure (env : InitEnv) (s : List Char) : Bool :=
  !env.callocViOk || !env.strdupEvdevOk ||
  ((splitAtComma s).2.isSome && !env.strdupSerialOk) ||
  decide (env.openFd (splitAtComma s).1 < 0) ||
  !env.ioctlVersionOk || !env.ioctlGrabOk ||
  !env.callocQueueOk || !env.meventAddOk || !env.interruptInitOk

/-- The acquisition list virtio_input_init has built when it reaches the
open(2) call. -/
def accAtOpen (hasSerial : Bool) : List Res :=
  if hasSerial then [Res.viStruct, Res.evdevStr, Res.serialStr]
  else [Res.viStruct, Res.evdevStr]

/-- Teardown correctness of the tail steps (mutex init onward): whenever
the staging-buffer calloc, mevent_add or interrupt init fails, the fail
block returns -1 and releases exactly the held resources in the fixed
teardown order. -/
theorem init_tail_fail_teardown (env : InitEnv) (hasSerial : Bool)
    (fd : Int) (hfd : 0 < fd)
    (hfail : env.callocQueueOk = false ∨ env.meventAddOk = false ∨
      env.interruptInitOk = false) :
    (virtio_input_init_tail env hasSerial fd
        (accAtOpen hasSerial ++ [Res.hostFd])).ret = -1 ∧
    (virtio_input_init_tail env hasSerial fd
        (accAtOpen hasSerial ++ [Res.hostFd])).released =
      releasedFor (virtio_input_init_tail env hasSerial fd
        (accAtOpen hasSerial ++ [Res.hostFd])).acquired := by
  obtain ⟨cv, sde, sds, op, iv, ig, mi, cq, ma, ii, mb⟩ := env
  cases hasSerial <;> cases mi <;> cases cq <;> cases ma <;> cases ii <;>
    simp_all [virtio_input_init_tail, failRelease, releasedFor,
      teardownOrder, accAtOpen, hfd]

/-- Teardown correctness from the open(2) call onward: whenever open, an
ioctl, or one of the tail steps fails (and open does not return the
descriptor 0, which the source's `vi->fd > 0` cleanup guard would skip),
the function returns -1 and releases exactly the held resources in the
fixed teardown order. -/
theorem init_open_fail_teardown (env : InitEnv) (path : List Char)
    (hasSerial : Bool) (hfd : env.openFd path ≠ 0)
    (hfail : env.openFd path < 0 ∨ env.ioctlVersionOk = false ∨
      env.ioctlGrabOk = false ∨ env.callocQueueOk = false ∨
      env.meventAddOk = false ∨ env.interruptInitOk = false) :
    (virtio_input_init_open env path hasSerial (accAtOpen hasSerial)).ret
      = -1 ∧
    (virtio_input_init_open env path hasSerial (accAtOpen hasSerial)).released
      = releasedFor
        (virtio_input_init_open env path hasSerial
          (accAtOpen hasSerial)).acquired := by
  by_cases hlt : env.openFd path < 0
  · have hnp : ¬ (0 < env.openFd path) := by omega
    cases hasSerial <;>
      simp_all [virtio_input_init_open, failRelease, releasedFor,
        teardownOrder, accAtOpen]
  · have hpos : 0 < env.openFd path := by omega
    cases hiv : env.ioctlVersionOk with
    | false =>
      cases hasSerial <;>
        (simp_all [virtio_input_init_open, failRelease, releasedFor,
          teardownOrder, accAtOpen];
         rw [if_neg (show ¬ env.openFd path < 0 by omega)];
         decide)
    | true =>
      cases hig : env.ioctlGrabOk with
      | false =>
        cases hasSerial <;>
          (simp_all [virtio_input_init_open, failRelease, releasedFor,
            teardownOrder, accAtOpen];
           rw [if_neg (show ¬ env.openFd path < 0 by omega)];
           decide)
      | true =>
        have hfail2 : env.callocQueueOk = false ∨ env.meventAddOk = false ∨
            env.interruptInitOk = false := by
          rcases hfail with h | h | h | h | h | h
          · exact absurd h hlt
          · rw [hiv] at h; exact absurd h (by decide)
          · rw [hig] at h; exact absurd h (by decide)
          · exact Or.inl h
          · exact Or.inr (Or.inl h)
          · exact Or.inr (Or.inr h)
        have htail := init_tail_fail_teardown env hasSerial
          (env.openFd path) hpos hfail2
        simp only [virtio_input_init_open, hiv, hig, Bool.not_true,
          Bool.false_eq_true, if_false] at htail ⊢
        rw [if_neg hlt]
        exact htail

/-- C1 (amended): at every guarded failure point of virtio_input_init
(struct calloc, path strdup, serial strdup, open, either ioctl,
staging-buffer calloc, mevent_add, interrupt init) the function returns
the construction error -1 and releases exactly the resources acquired
before that point, so no partially constructed device remains — but in
the source's fixed teardown order (mutex, staging buffer, event-loop
registration, host descriptor, serial string, path string, device
struct), which is not the exact reverse of the acquisition order.  The
hypothesis that open(2) does not return descriptor 0 reflects the
source's `vi->fd > 0` cleanup guard. -/
theorem virtio_input_init_fail_teardown (env : InitEnv) (s : List Char)
    (hfail : guardedFailure env s = true)
    (hfd : env.openFd (splitAtComma s).1 ≠ 0) :
    (virtio_input_init env (some s)).ret = -1 ∧
    (virtio_input_init env (some s)).released =
      releasedFor (virtio_input_init env (some s)).acquired := by
  rcases hsp : splitAtComma s with ⟨path, rest⟩
  unfold guardedFailure at hfail
  rw [hsp] at hfail hfd
  dsimp only at hfail hfd
  cases hcv : env.callocViOk with
  | false => simp [virtio_input_init, hsp, hcv, releasedFor, teardownOrder]
  | true =>
    cases hsde : env.strdupEvdevOk with
    | false =>
      simp [virtio_input_init, hsp, hcv, hsde, failRelease, releasedFor,
        teardownOrder]
    | true =>
      cases rest with
      | none =>
        have hrest : (none : Option (List Char)).isSome = false := rfl
        have hfail2 : env.openFd path < 0 ∨ env.ioctlVersionOk = false ∨
            env.ioctlGrabOk = false ∨ env.callocQueueOk = false ∨
            env.meventAddOk = false ∨ env.interruptInitOk = false := by
          simp only [hcv, hsde, hrest, Bool.not_true, Bool.false_or,
            Bool.false_and, Bool.or_eq_true, Bool.not_eq_true',
            decide_eq_true_eq] at hfail
          tauto
        have h := init_open_fail_teardown env path false hfd hfail2
        simp only [accAtOpen, if_neg (by decide : ¬ False = True)] at h
        simpa [virtio_input_init, hsp, hcv, hsde] using h
      | some r =>
        cases hsds : env.strdupSerialOk with
        | false =>
          simp [virtio_input_init, hsp, hcv, hsde, hsds, failRelease,
            releasedFor, teardownOrder]
        | true =>
          have hfail2 : env.openFd path < 0 ∨ env.ioctlVersionOk = false ∨
              env.ioctlGrabOk = false ∨ env.callocQueueOk = false ∨
              env.meventAddOk = false ∨ env.interruptInitOk = false := by
            simp only [hcv, hsde, hsds, Bool.not_true, Bool.false_or,
              Bool.and_false, Bool.or_eq_true, Bool.not_eq_true',
              decide_eq_true_eq] at hfail
            tauto
          have h := init_open_fail_teardown env path true hfd hfail2
          simp only [accAtOpen, if_pos rfl] at h
          simpa [virtio_input_init, hsp, hcv, hsde, hsds] using h

/-- An environment in which everything up to and including mevent_add
succeeds and the interrupt init fails, with open(2) returning descriptor
3 and no serial in the opts string. -/
def envIntrFail : InitEnv :=
  { callocViOk := true, strdupEvdevOk := true, strdupSerialOk := true,
    openFd := fun _ => 3, ioctlVersionOk := true, ioctlGrabOk := true,
    mutexInitOk := true, callocQueueOk := true, meventAddOk := true,
    interruptInitOk := false, setModernBarRc := 0 }

/-- C1 witness: with the interrupt-init step failing after everything else
succeeded, init returns -1 and releases exactly the acquired resources in
the fixed teardown order. -/
theorem virtio_input_init_fail_teardown_witness :
    (virtio_input_init envIntrFail (some ['e'])).ret = -1 ∧
    (virtio_input_init envIntrFail (some ['e'])).released =
      releasedFor (virtio_input_init envIntrFail (some ['e'])).acquired :=
  virtio_input_init_fail_teardown envIntrFail ['e'] (by decide) (by decide)

/-- C1 counterexample: the claim says failure teardown happens in the
exact reverse of the acquisition order, but at the interrupt-init failure
point the source destroys the mutex and frees the staging buffer before
unregistering the event-loop callback, so the release list is not the
reverse of the acquisition list. -/
theorem virtio_input_init_teardown_not_reverse :
    ¬ ((virtio_input_init envIntrFail (some ['e'])).released =
      (virtio_input_init envIntrFail (some ['e'])).acquired.reverse) := by
  decide

/-- C8: a missing source specification (NULL opts) makes attach fail
immediately with -1 and nothing acquired; a specification with no device
path before the first comma makes open(2) of the empty path fail (POSIX:
opening the empty pathname fails with ENOENT, captured by the hypothesis),
so attach fails at construction time with -1 and every acquired resource
released — no device is created and nothing is deferred to runtime. -/
theorem virtio_input_init_bad_spec (env : InitEnv) (s : List Char)
    (hempty : (splitAtComma s).1 = [])
    (hopen : env.openFd [] < 0) :
    (virtio_input_init env none).ret = -1 ∧
    (virtio_input_init env none).acquired = [] ∧
    (virtio_input_init env (some s)).ret = -1 ∧
    (virtio_input_init env (some s)).released.Perm
      (virtio_input_init env (some s)).acquired := by
  refine ⟨rfl, rfl, ?_⟩
  rcases hsp : splitAtComma s with ⟨path, rest⟩
  have hpath : path = [] := by rw [hsp] at hempty; exact hempty
  subst hpath
  have hneg : ¬ (0 : Int) < env.openFd [] := by omega
  cases hcv : env.callocViOk with
  | false =>
    have hres : virtio_input_init env (some s) = ⟨-1, [], []⟩ := by
      simp [virtio_input_init, hcv]
    rw [hres]
    exact ⟨rfl, List.Perm.refl _⟩
  | true =>
    cases hsde : env.strdupEvdevOk with
    | false =>
      have hres : virtio_input_init env (some s) =
          ⟨-1, [Res.viStruct], [Res.viStruct]⟩ := by
        simp [virtio_input_init, hsp, hcv, hsde, failRelease]
      rw [hres]
      exact ⟨rfl, by decide⟩
    | true =>
      cases rest with
      | none =>
        have hres : virtio_input_init env (some s) =
            ⟨-1, [Res.viStruct, Res.evdevStr],
              [Res.evdevStr, Res.viStruct]⟩ := by
          simp [virtio_input_init, hsp, hcv, hsde, virtio_input_init_open,
            hopen, failRelease, hneg]
        rw [hres]
        exact ⟨rfl, by decide⟩
      | some r =>
        cases hsds : env.strdupSerialOk with
        | false =>
          have hres : virtio_input_init env (some s) =
              ⟨-1, [Res.viStruct, Res.evdevStr],
                [Res.evdevStr, Res.viStruct]⟩ := by
            simp [virtio_input_init, hsp, hcv, hsde, hsds, failRelease]
          rw [hres]
          exact ⟨rfl, by decide⟩
        | true =>
          have hres : virtio_input_init env (some s) =
              ⟨-1, [Res.viStruct, Res.evdevStr, Res.serialStr],
                [Res.serialStr, Res.evdevStr, Res.viStruct]⟩ := by
            simp [virtio_input_init, hsp, hcv, hsde, hsds,
              virtio_input_init_open, hopen, failRelease, hneg]
          rw [hres]
          exact ⟨rfl, by decide⟩

/-- An environment in which every external call succeeds except that
open(2) fails on any path (as it must on the empty pathname). -/
def envOpenFail : InitEnv :=
  { callocViOk := true, strdupEvdevOk := true, strdupSerialOk := true,
    openFd := fun _ => -1, ioctlVersionOk := true, ioctlGrabOk := true,
    mutexInitOk := true, callocQueueOk := true, meventAddOk := true,
    interruptInitOk := true, setModernBarRc := 0 }

/-- C8 witness: NULL opts, and the opts string "," (empty device path
before the first comma), both fail at construction with -1 and leave
nothing held. -/
theorem virtio_input_init_bad_spec_witness :
    (virtio_input_init envOpenFail none).ret = -1 ∧
    (virtio_input_init envOpenFail none).acquired = [] ∧
    (virtio_input_init envOpenFail (some [','])).ret = -1 ∧
    (virtio_input_init envOpenFail (some [','])).released.Perm
      (virtio_input_init envOpenFail (some [','])).acquired :=
  virtio_input_init_bad_spec envOpenFail [','] (by decide) (by decide)
